import Mathlib

/-!
# Cluster Guardian — verification of spec claims against the source

Shallow embedding of the parts of the `cluster-guardian` repository that the
frozen claims talk about:

* `src/src/k8s_client.py` — Action Gateway (`ActionRateLimiter`, `AuditLog`,
  `K8sClient.restart_pod`, `K8sClient.scale_deployment`),
* `src/src/redis_client.py` — durable audit list (`append_audit_entry`),
* `src/src/quorum.py` / `src/src/quorum_tools.py` — quorum evaluator and gate,
* `src/src/continuous_monitor.py` — anomaly dispatcher dedupe,
* `src/src/incident_correlator.py` — incident correlation and debounce firing,
* `src/src/escalation_classifier.py` — escalation classification,
* `src/src/agent.py` — quiet hours and the investigate-issue response shape.

Timestamps are modelled as `Int` (seconds); the orchestrator API is modelled
by a boolean `apiOk` telling whether the underlying call raises `ApiException`.
-/

namespace ClusterGuardian

/-! ## Action Gateway state (k8s_client.py) -/

/-- The gateway-relevant slice of `src/src/config.py` `Settings`. -/
structure Settings where
  protected_namespaces : List String
  require_approval_for : List String
  max_actions_per_hour : Nat
  deriving Repr, DecidableEq

/-- One audit-log entry, `AuditLog.log`'s dict (k8s_client.py lines 99-107). -/
structure ActionRecord where
  timestamp : Int
  action : String
  target : String
  ns : String
  reason : String
  result : String
  deriving Repr, DecidableEq

/-- Model of `ActionRateLimiter` (k8s_client.py lines 23-79): a max count, a window in
seconds, and a time-ordered queue of `(timestamp, action)` pairs. -/
structure ActionRateLimiter where
  max_actions : Nat
  window_seconds : Int
  actions : List (Int × String)
  deriving Repr, DecidableEq

/-- Model of `ActionRateLimiter._cleanup_old`: pop entries from the front of the deque
while their timestamp is before `now - window_seconds`. -/
def ActionRateLimiter.cleanup_old (rl : ActionRateLimiter) (now : Int) :
    ActionRateLimiter :=
  { rl with
    actions := rl.actions.dropWhile (fun a => a.1 < now - rl.window_seconds) }

/-- Model of `ActionRateLimiter._refresh_max_actions`: if the runtime config store
returns a positive int for `max_actions_per_hour`, replace `max_actions`;
`none` models an unavailable store or a non-int value. -/
def ActionRateLimiter.refresh_max_actions (rl : ActionRateLimiter)
    (override : Option Nat) : ActionRateLimiter :=
  match override with
  | some v => if 0 < v then { rl with max_actions := v } else rl
  | none => rl

/-- Model of `ActionRateLimiter.can_act` (k8s_client.py lines 49-61): refresh the limit,
prune the window, then compare the count against the limit.  `redisCount`
models `redis_client.get_actions_in_window` when Redis is available;
`none` models Redis unavailable (fall back to the in-process deque). -/
def ActionRateLimiter.can_act (rl : ActionRateLimiter) (now : Int)
    (override : Option Nat) (redisCount : Option Nat) :
    Bool × ActionRateLimiter :=
  let rl1 := (rl.refresh_max_actions override).cleanup_old now
  match redisCount with
  | some n => (n < rl1.max_actions, rl1)
  | none => (rl1.actions.length < rl1.max_actions, rl1)

/-- Model of `ActionRateLimiter.record_action`: append `(now, action)` to the queue. -/
def ActionRateLimiter.record_action (rl : ActionRateLimiter) (now : Int)
    (action : String) : ActionRateLimiter :=
  { rl with actions := rl.actions ++ [(now, action)] }

/-- Model of `redis_client.py` `AUDIT_LOG_MAX_LEN = 500`. -/
def AUDIT_LOG_MAX_LEN : Nat := 500

/-- Model of `AuditLog` (k8s_client.py lines 82-128): an unbounded in-memory list plus
the durable Redis list (most recent first, `lpush` + `ltrim` to 500). -/
structure AuditLog where
  entries : List ActionRecord
  redis_entries : List ActionRecord
  deriving Repr, DecidableEq

/-- Model of `AuditLog.log` (k8s_client.py lines 89-117) combined with
`redis_client.append_audit_entry` (redis_client.py lines 101-109): append to
the in-memory list (no trimming), and `lpush` + `ltrim` the durable list to
the last `AUDIT_LOG_MAX_LEN` entries. -/
def AuditLog.log (log : AuditLog) (e : ActionRecord) : AuditLog :=
  { entries := log.entries ++ [e],
    redis_entries := (e :: log.redis_entries).take AUDIT_LOG_MAX_LEN }

/-- Mutable state of `K8sClient` relevant to the mutation operations. -/
structure ClientState where
  rate_limiter : ActionRateLimiter
  audit_log : AuditLog
  deriving Repr, DecidableEq

/-- The result dict of a mutation operation.  `requires_approval = none`
models the key being absent from the returned dict. -/
structure OpResult where
  success : Bool
  error : Option String := none
  message : Option String := none
  requires_approval : Option Bool := none
  deriving Repr, DecidableEq

/-- Outcome of running one mutation: the returned dict, the updated client
state, and whether the orchestrator API was invoked. -/
structure OpOutcome where
  result : OpResult
  state : ClientState
  apiCalled : Bool
  deriving Repr, DecidableEq

/-- Model of `K8sClient._check_namespace_protected` (k8s_client.py lines 164-166). -/
def check_namespace_protected (s : Settings) (ns : String) : Bool :=
  s.protected_namespaces.contains ns

/-- Model of `K8sClient.restart_pod` (k8s_client.py lines 667-698).  `apiOk` tells
whether `delete_namespaced_pod` succeeds; `apiErr` is `str(e)` otherwise. -/
def restart_pod (s : Settings) (st : ClientState) (now : Int)
    (override redisCount : Option Nat)
    (ns name reason : String) (apiOk : Bool) (apiErr : String) :
    OpOutcome :=
  if check_namespace_protected s ns then
    { result := { success := false,
                  error := some ("Namespace " ++ ns ++ " is protected") },
      state := st, apiCalled := false }
  else
    let ca := st.rate_limiter.can_act now override redisCount
    let st1 : ClientState := { st with rate_limiter := ca.2 }
    if !ca.1 then
      { result := { success := false, error := some "Rate limit exceeded" },
        state := st1, apiCalled := false }
    else if apiOk then
      { result := { success := true,
                    message := some ("Pod " ++ name ++ " deleted for restart") },
        state := { rate_limiter := st1.rate_limiter.record_action now
                     ("restart_pod:" ++ ns ++ "/" ++ name),
                   audit_log := st1.audit_log.log
                     ⟨now, "restart_pod", name, ns, reason, "success"⟩ },
        apiCalled := true }
    else
      { result := { success := false, error := some apiErr },
        state := { st1 with audit_log := (st1.audit_log.log
                     ⟨now, "restart_pod", name, ns, reason, "failed"⟩) },
        apiCalled := true }

/-- Model of `K8sClient.scale_deployment` (k8s_client.py lines 700-751).  The namespace
check comes first, then the rate limit, then the scale-to-zero approval
check, then the patch. -/
def scale_deployment (s : Settings) (st : ClientState) (now : Int)
    (override redisCount : Option Nat)
    (ns name : String) (replicas : Int) (reason : String)
    (apiOk : Bool) (apiErr : String) : OpOutcome :=
  if check_namespace_protected s ns then
    { result := { success := false,
                  error := some ("Namespace " ++ ns ++ " is protected") },
      state := st, apiCalled := false }
  else
    let ca := st.rate_limiter.can_act now override redisCount
    let st1 : ClientState := { st with rate_limiter := ca.2 }
    if !ca.1 then
      { result := { success := false, error := some "Rate limit exceeded" },
        state := st1, apiCalled := false }
    else if replicas = 0 && s.require_approval_for.contains "scale_to_zero" then
      { result := { success := false,
                    error := some "Scale to zero requires human approval",
                    requires_approval := some true },
        state := st1, apiCalled := false }
    else if apiOk then
      { result := { success := true,
                    message := some ("Deployment " ++ name ++ " scaled") },
        state := { rate_limiter := st1.rate_limiter.record_action now
                     ("scale_deployment:" ++ ns ++ "/" ++ name),
                   audit_log := st1.audit_log.log
                     ⟨now, "scale_deployment", name, ns, reason, "success"⟩ },
        apiCalled := true }
    else
      { result := { success := false, error := some apiErr },
        state := { st1 with audit_log := (st1.audit_log.log
                     ⟨now, "scale_deployment", name, ns, reason, "failed"⟩) },
        apiCalled := true }

/-! ## Quorum evaluator and gate (quorum.py, quorum_tools.py) -/

/-- Model of `QuorumVote` (quorum.py lines 50-59). -/
structure QuorumVote where
  agent_id : String
  action : String
  target : String
  approved : Bool
  reasoning : String
  confidence : ℚ
  deriving Repr, DecidableEq

/-- Model of `QuorumResult` (quorum.py lines 62-71).  The field `consensus` models
the source field `consensus_ratio`. -/
structure QuorumResult where
  action : String
  target : String
  approved : Bool
  votes : List QuorumVote
  consensus : ℚ
  dissenting_reasons : List String
  deriving Repr, DecidableEq

/-- What one quorum LLM task produced, as seen by `_evaluate_single`
(quorum.py lines 158-209):

* `replied pa pr pc` — the LLM answered; `pa`/`pr`/`pc` are the `approved`,
  `reasoning` and `confidence` fields of the dict `_parse_vote_json`
  extracted.  A malformed response parses to the empty dict, i.e. all three
  fields are `none` (`parsed.get` then supplies the defaults).
* `timedOut` — `asyncio.TimeoutError` was raised.
* `errored msg` — another exception was raised inside `_evaluate_single`.
* `taskFailed msg` — the task itself raised before producing a vote (for
  example in `create_llm`); `asyncio.gather(..., return_exceptions=True)`
  hands the exception back and `evaluate_action` filters it out. -/
inductive VoteTaskOutcome where
  | replied (pa : Option Bool) (pr : Option String) (pc : Option ℚ)
  | timedOut
  | errored (msg : String)
  | taskFailed (msg : String)
  deriving Repr, DecidableEq

/-- The raw LLM response content, used as the fallback reasoning when the
parsed dict has no `reasoning` key (quorum.py line 189). -/
def rawContent : String := "raw response"

/-- Model of `QuorumEvaluator._evaluate_single` (quorum.py lines 158-209) as the map
from the task outcome to the produced vote; `none` models the task raising
(so the result is an exception object, not a `QuorumVote`). -/
def evaluate_single (agent_id action target : String)
    (outcome : VoteTaskOutcome) : Option QuorumVote :=
  match outcome with
  | .replied pa pr pc =>
      some ⟨agent_id, action, target, pa.getD false,
            pr.getD rawContent, pc.getD (1 / 2)⟩
  | .timedOut =>
      some ⟨agent_id, action, target, false, "Agent timed out", 0⟩
  | .errored msg =>
      some ⟨agent_id, action, target, false, "Agent error: " ++ msg, 0⟩
  | .taskFailed _ => none

/-- The `valid_votes` list of `evaluate_action` (quorum.py lines 126-131):
every task outcome mapped through `_evaluate_single`, keeping only actual
votes (exceptions returned by `asyncio.gather` are dropped). -/
def quorum_valid_votes (action target : String)
    (outcomes : List VoteTaskOutcome) : List QuorumVote :=
  (outcomes.enum).filterMap fun p =>
    evaluate_single ("agent-" ++ toString (p.1 + 1)) action target p.2

/-- The `consensus_ratio` computed by `evaluate_action` (quorum.py lines
143-144): approving votes over valid votes. -/
def quorum_consensus (action target : String)
    (outcomes : List VoteTaskOutcome) : ℚ :=
  let valid_votes := quorum_valid_votes action target outcomes
  ((valid_votes.filter (·.approved)).length : ℚ) / (valid_votes.length : ℚ)

/-- Model of `QuorumEvaluator.evaluate_action` (quorum.py lines 87-156): map each task
outcome through `_evaluate_single`, drop results that are not votes, fail
closed when no valid votes remain, otherwise approve exactly when the
approving fraction is strictly greater than the threshold. -/
def evaluate_action (threshold : ℚ) (action target : String)
    (outcomes : List VoteTaskOutcome) : QuorumResult :=
  let valid_votes := quorum_valid_votes action target outcomes
  if valid_votes.isEmpty then
    ⟨action, target, false, [], 0, ["All quorum agents failed to respond"]⟩
  else
    let ratio : ℚ := quorum_consensus action target outcomes
    let approved := threshold < ratio
    ⟨action, target, approved, valid_votes, ratio,
     (valid_votes.filter (fun v => v.approved ≠ approved)).map (·.reasoning)⟩

/-- Python `"{:.0%}".format(r)`: the ratio rendered as a whole-number
percentage.  (Mathlib `round` rounds half away from the nearest even less
often than Python does, but no claim depends on the tie case.) -/
def formatPercent (r : ℚ) : String :=
  toString (round (r * 100) : ℤ) ++ "%"

/-- The BLOCKED message built by `quorum_gate` (quorum_tools.py lines 70-79). -/
def blockedMessage (res : QuorumResult) : String :=
  let reasons :=
    if res.dissenting_reasons = [] then "majority voted against"
    else String.intercalate "; " res.dissenting_reasons
  "BLOCKED by quorum (" ++ formatPercent res.consensus ++
    " approved, threshold >50% required). Reasons: " ++ reasons

/-- Model of `quorum_gate`'s `gated_func` (quorum_tools.py lines 29-81), after the
quorum result `res` is known: if the quorum did not approve, return the
BLOCKED message without running the wrapped coroutine; otherwise run it.
The boolean records whether the original coroutine was executed, and
`coroutineResult` is what it would return. -/
def gated_func (res : QuorumResult) (coroutineResult : String) :
    Bool × String :=
  if !res.approved then (false, blockedMessage res)
  else (true, coroutineResult)

/-! ## Anomaly dispatcher dedupe (continuous_monitor.py lines 457-495) -/

/-- Model of `self._seen_keys.get(key, 0.0)`: last dispatch time for a dedupe key,
defaulting to 0. -/
def lastSeenGet (seen : List (String × Int)) (k : String) : Int :=
  (seen.lookup k).getD 0

/-- Model of `self._seen_keys[key] = now`: keyed update of the dict. -/
def seenInsert (seen : List (String × Int)) (k : String) (t : Int) :
    List (String × Int) :=
  (k, t) :: seen.filter (fun p => p.1 ≠ k)

/-- The dedupe decision of `_anomaly_dispatcher` for one signal
(continuous_monitor.py lines 471-477): suppress when `now - last_seen`
is below the suppression window, otherwise admit the signal into the
current batch and update the key timestamp to `now`. -/
def dedupStep (window : Int) (seen : List (String × Int)) (k : String)
    (now : Int) : Bool × List (String × Int) :=
  if now - lastSeenGet seen k < window then (false, seen)
  else (true, seenInsert seen k now)

/-- Run the dispatcher dedupe over a queue of `(dedupe_key, time)` signals in
processing order; returns the dispatched (admitted) signals and the final
`_seen_keys` map. -/
def dedupRun (window : Int) (seen : List (String × Int)) :
    List (String × Int) → List (String × Int) × List (String × Int)
  | [] => ([], seen)
  | (k, t) :: evs =>
    if t - lastSeenGet seen k < window then dedupRun window seen evs
    else
      let rest := dedupRun window (seenInsert seen k t) evs
      ((k, t) :: rest.1, rest.2)

/-! ## Incident correlator (incident_correlator.py) -/

/-- An Alertmanager-style alert as the correlator reads it: its `labels`
dict, plus an optional top-level `alertname` key (used as the first choice
by `Incident.alert_names`). -/
structure Alert where
  labels : List (String × String)
  top_alertname : Option String := none
  deriving Repr, DecidableEq

/-- Model of `labels.get(key, "")`. -/
def labelGet (a : Alert) (k : String) : String :=
  (a.labels.lookup k).getD ""

/-- Model of `RELATED_ALERT_GROUPS` (incident_correlator.py lines 21-27). -/
def RELATED_ALERT_GROUPS : List (List String) :=
  [["KubePodCrashLooping", "KubePodNotReady", "KubeContainerWaiting"],
   ["KubeNodeNotReady", "KubeNodeUnreachable", "KubeNodePressure"],
   ["KubeDeploymentReplicasMismatch", "KubeStatefulSetReplicasMismatch"],
   ["KubePersistentVolumeFillingUp", "KubePersistentVolumeErrors"],
   ["CPUThrottlingHigh", "KubeContainerOOMKilled"]]

/-- Model of `_alerts_related` (incident_correlator.py lines 34-39). -/
def alerts_related (a b : String) : Bool :=
  RELATED_ALERT_GROUPS.any (fun g => g.contains a && g.contains b)

/-- Model of `_correlation_key` (incident_correlator.py lines 99-123): workload key,
then node key, then `(namespace, alertname)` fallback.  Python `or` picks
the first truthy (non-empty) label. -/
def correlation_key (a : Alert) : String :=
  let ns := labelGet a "namespace"
  let workload :=
    if labelGet a "deployment" ≠ "" then labelGet a "deployment"
    else if labelGet a "statefulset" ≠ "" then labelGet a "statefulset"
    else if labelGet a "daemonset" ≠ "" then labelGet a "daemonset"
    else if labelGet a "job" ≠ "" then labelGet a "job"
    else labelGet a "pod"
  if workload ≠ "" then ns ++ "/" ++ workload
  else
    let node := match a.labels.lookup "node" with
      | some v => v
      | none => labelGet a "instance"
    if node ≠ "" then "node/" ++ node
    else
      let alertname := (a.labels.lookup "alertname").getD "unknown"
      ns ++ "/" ++ alertname

/-- Model of `Incident` (incident_correlator.py lines 42-51). -/
structure Incident where
  id : String
  correlation_key : String
  alerts : List Alert
  created_at : Int
  last_alert_at : Int
  investigated : Bool
  deriving Repr, DecidableEq

/-- Model of `Incident.add_alert` (lines 53-55); `time.time()` at the moment of the
call is the correlator's `now`. -/
def Incident.add_alert (inc : Incident) (a : Alert) (now : Int) : Incident :=
  { inc with alerts := inc.alerts ++ [a], last_alert_at := now }

/-- Model of `Incident.alert_names` (lines 57-62): for each alert, the top-level
`alertname` key if present, else `labels["alertname"]`, else `""`. -/
def Incident.alert_names (inc : Incident) : List String :=
  inc.alerts.map fun a => a.top_alertname.getD (labelGet a "alertname")

/-- Model of `_incident_id` (lines 126-129) builds `"inc-" ++ sha256(key)[:12]`; the
hash is modelled by the key text itself (all that matters to the claims is
that the id is derived from its argument). -/
def incident_id (key : String) : String := "inc-" ++ key

/-- Model of `IncidentCorrelator._incidents`: insertion-ordered dict from correlation
key to incident. -/
abbrev IncidentMap := List (String × Incident)

/-- Keyed update of `_incidents` preserving iteration order for other keys. -/
def incidentsInsert (m : IncidentMap) (k : String) (inc : Incident) :
    IncidentMap :=
  if (m.lookup k).isSome then
    m.map (fun p => if p.1 = k then (k, inc) else p)
  else m ++ [(k, inc)]

/-- The related-alertname scan of `IncidentCorrelator.correlate`
(incident_correlator.py lines 181-196): the first incident, in dict order,
that is within the window and contains an alert name different from (and
related to) `alertname`. -/
def findRelated (window now : Int) (alertname : String) (m : IncidentMap) :
    Option (String × Incident) :=
  m.find? fun p =>
    decide (now - p.2.last_alert_at < window) &&
      p.2.alert_names.any (fun en => en ≠ alertname && alerts_related alertname en)

/-- The new-incident branch of `IncidentCorrelator.correlate`
(incident_correlator.py lines 198-208): create a fresh incident under `key`. -/
def correlateNew (m : IncidentMap) (a : Alert) (now : Int) (key : String) :
    IncidentMap × String :=
  let id := incident_id (key ++ "-" ++ toString now)
  (incidentsInsert m key ⟨id, key, [a], now, now, false⟩, id)

/-- The related-alert branch of `IncidentCorrelator.correlate` followed by the
new-incident branch (incident_correlator.py lines 180-208). -/
def correlateFallback (window : Int) (m : IncidentMap) (a : Alert) (now : Int)
    (key alertname : String) : IncidentMap × String :=
  if alertname ≠ "" then
    match findRelated window now alertname m with
    | some (ek, einc) =>
      (incidentsInsert m ek (einc.add_alert a now), einc.id)
    | none => correlateNew m a now key
  else correlateNew m a now key

/-- Model of `IncidentCorrelator.correlate` (incident_correlator.py lines
161-208).  Returns the updated incident map and the id of the incident the
alert was placed in. -/
def correlate (window : Int) (m : IncidentMap) (a : Alert) (now : Int) :
    IncidentMap × String :=
  let key := correlation_key a
  let alertname := labelGet a "alertname"
  match m.lookup key with
  | some inc =>
    if now - inc.last_alert_at < window then
      (incidentsInsert m key (inc.add_alert a now), inc.id)
    else correlateFallback window m a now key alertname
  | none => correlateFallback window m a now key alertname

/-- The body of `_debounced` in `IncidentCorrelator.schedule_investigation`
(incident_correlator.py lines 223-241), after the debounce sleep expires:
the investigation callback fires only when the incident is not yet
investigated and a callback is registered; firing marks the incident
investigated.  Returns (fired, incident afterwards). -/
def debounced_fire (inc : Incident) (callbackSet : Bool) : Bool × Incident :=
  if !inc.investigated && callbackSet then (true, { inc with investigated := true })
  else (false, inc)

/-! ## Escalation classifier (escalation_classifier.py) -/

/-- Model of `EscalationLevel` (escalation_classifier.py lines 51-54). -/
inductive EscalationLevel where
  | quick_fix
  | long_term
  | observation_only
  deriving Repr, DecidableEq

/-- Model of `QUICK_FIX_SOURCES` (lines 16-22). -/
def QUICK_FIX_SOURCES : List String := ["k8s_crashloop", "gatus", "daemonset"]

/-- Model of `LONG_TERM_SOURCES` (lines 24-28). -/
def LONG_TERM_SOURCES : List String := ["node_condition"]

/-- Model of `QUICK_FIX_KEYWORDS` (lines 30-38). -/
def QUICK_FIX_KEYWORDS : List String :=
  ["restart", "crashloop", "oomkilled", "backoff", "failed job",
   "rollout stuck", "unhealthy endpoint"]

/-- Model of `LONG_TERM_KEYWORDS` (lines 40-48). -/
def LONG_TERM_KEYWORDS : List String :=
  ["memory limit", "resource limit", "config change", "recurring",
   "disk pressure", "pid pressure", "node not ready"]

/-- Python `str.lower()`, character by character (the configured sources,
titles and details are ASCII). -/
def pyLower (s : String) : String := ⟨s.data.map Char.toLower⟩

/-- Python `kw in text` substring containment. -/
def containsSub (needle haystack : String) : Bool :=
  decide (needle.toList <:+: haystack.toList)

/-- Keyed update of the `_occurrence_counts` dict. -/
def countsInsert (m : List (String × Nat)) (k : String) (v : Nat) :
    List (String × Nat) :=
  (k, v) :: m.filter (fun p => p.1 ≠ k)

/-- Model of `EscalationClassifier.classify` (escalation_classifier.py lines 64-126),
with the mutable `_occurrence_counts` dict made an explicit argument; it
returns the level together with the updated dict.  The external count uses
`max(issue_counts.get(dedupe_key, 0), issue_counts.get(source, 0))` and the
combined count is `max(internal, external)`; the recurring rule is checked
before the source, keyword and severity rules. -/
def classify (recurring_threshold : Nat) (counts : List (String × Nat))
    (source severity title details dedupe_key : String)
    (issue_counts : Option (List (String × Nat))) :
    EscalationLevel × List (String × Nat) :=
  let text := pyLower (title ++ " " ++ details)
  let internal := (counts.lookup dedupe_key).getD 0 + 1
  let counts1 := countsInsert counts dedupe_key internal
  let external := match issue_counts with
    | some ic => max ((ic.lookup dedupe_key).getD 0) ((ic.lookup source).getD 0)
    | none => 0
  let total_count := max internal external
  let level :=
    if recurring_threshold ≤ total_count then .long_term
    else if LONG_TERM_SOURCES.contains source then .long_term
    else if QUICK_FIX_SOURCES.contains source then .quick_fix
    else if LONG_TERM_KEYWORDS.any (fun kw => containsSub kw text) then .long_term
    else if QUICK_FIX_KEYWORDS.any (fun kw => containsSub kw text) then .quick_fix
    else if severity = "critical" then .quick_fix
    else if severity = "info" then EscalationLevel.observation_only
    else EscalationLevel.quick_fix
  (level, counts1)

/-! ## Quiet hours (agent.py lines 61-93) -/

/-- Python `str.split(":")` on the character list. -/
def splitOnColon : List Char → List (List Char)
  | [] => [[]]
  | c :: cs =>
    match splitOnColon cs with
    | r :: rs => if c = ':' then [] :: r :: rs else (c :: r) :: rs
    | [] => [[]]

/-- Python `int(...)` on a plain digit string; `none` models `ValueError`. -/
def digitsToNat? (cs : List Char) : Option Nat :=
  if cs = [] then none
  else
    cs.foldl (fun acc c =>
      match acc with
      | some n => if c.isDigit then some (n * 10 + (c.toNat - 48)) else none
      | none => none) (some 0)

/-- Model of `"HH:MM".split(":")` then `int(parts[0]) * 60 + int(parts[1])`; `none`
models the `ValueError`/`IndexError` that an unparseable setting raises. -/
def parseHHMM (s : String) : Option Nat :=
  match splitOnColon s.data with
  | p0 :: p1 :: _ =>
    match digitsToNat? p0, digitsToNat? p1 with
    | some h, some m => some (h * 60 + m)
    | _, _ => none
  | _ => none

/-- Model of `_is_quiet_hours` (agent.py lines 61-93).  The configured bounds are
`Option String` (`none` = unset, and the empty string is also falsy); the
current wall clock in the configured zone is given as minutes since local
midnight (`now.hour * 60 + now.minute`).  Result `none` models the
exception raised by an unparseable bound. -/
def is_quiet_hours (startCfg endCfg : Option String) (currentMinutes : Nat) :
    Option Bool :=
  match startCfg, endCfg with
  | some s, some e =>
    if s = "" || e = "" then some false
    else
      match parseHHMM s, parseHHMM e with
      | some start_minutes, some end_minutes =>
        if start_minutes ≤ end_minutes then
          some (decide (start_minutes ≤ currentMinutes ∧
                        currentMinutes < end_minutes))
        else
          some (decide (start_minutes ≤ currentMinutes ∨
                        currentMinutes < end_minutes))
      | _, _ => none
  | _, _ => some false

/-! ## Investigate-issue response shape (agent.py lines 1240-1327, api.py
lines 477-497) -/

/-- The keys of the dict `ClusterGuardian.investigate_issue` returns
(agent.py lines 1313-1318 on success, lines 1323-1327 on failure); the
`/api/v1/investigate` route handler returns this dict verbatim
(api.py line 497). -/
def investigate_issue_keys (runOk : Bool) : List String :=
  if runOk then ["success", "summary", "audit_log", "timestamp"]
  else ["success", "error", "timestamp"]

/-! ## Concrete instances used by witnesses and counterexamples -/

/-- The default gateway policy of `src/src/config.py` (lines 37-55), with
`max_actions_per_hour` lowered to 2 as in spec scenario 4. -/
def exampleSettings : Settings :=
  ⟨["kube-system", "kube-public", "kube-node-lease", "longhorn-system",
    "calico-system", "tigera-operator"],
   ["delete_pvc", "cordon_node", "drain_node", "scale_to_zero"], 2⟩

/-- A client whose rate window already holds `max_actions = 2` actions. -/
def exhaustedState : ClientState :=
  ⟨⟨2, 3600, [(1000, "restart_pod:default/a"), (1001, "restart_pod:default/b")]⟩,
   ⟨[], []⟩⟩

/-- A client with an empty rate window and an empty audit log. -/
def freshState : ClientState := ⟨⟨2, 3600, []⟩, ⟨[], []⟩⟩

/-- A crash-loop alert for pod `web` in namespace `default`. -/
def exampleAlert : Alert :=
  ⟨[("namespace", "default"), ("pod", "web"),
    ("alertname", "KubePodCrashLooping")], none⟩

/-- An already-investigated (terminal) incident for `default/web`. -/
def exampleTerminalIncident : Incident :=
  ⟨"inc-default/web-1000", "default/web", [exampleAlert], 1000, 1000, true⟩

/-- Three quorum task outcomes: one approval and two rejections. -/
def exampleQuorumOutcomes : List VoteTaskOutcome :=
  [.replied (some true) (some "looks safe") (some (9 / 10)),
   .replied (some false) (some "too risky") (some (8 / 10)),
   .replied (some false) (some "band-aid") (some (7 / 10))]

/-- Two quorum task outcomes forming an exact even split. -/
def evenSplitOutcomes : List VoteTaskOutcome :=
  [.replied (some true) (some "yes") (some 1),
   .replied (some false) (some "no") (some 1)]

/-! ## Theorems for the claims -/

/-- **C1 — counterexample.**  The claim says `scale_deployment(replicas=0)`
returns `requires_approval = true` regardless of how many actions remain in
the rate-limit window, the approval gate being evaluated before the rate
limit.  In the code the rate limit is checked first (k8s_client.py line 707
before line 711): with the window exhausted the call returns the rate-limit
error and no `requires_approval` key at all, even though the namespace is
unprotected and `scale_to_zero` is in the approval set. -/
theorem C1_counterexample :
    check_namespace_protected exampleSettings "default" = false ∧
    exampleSettings.require_approval_for.contains "scale_to_zero" = true ∧
    (scale_deployment exampleSettings exhaustedState 1002 none none "default"
       "web" 0 "scale down" true "").result.requires_approval = none ∧
    (scale_deployment exampleSettings exhaustedState 1002 none none "default"
       "web" 0 "scale down" true "").result.error =
      some "Rate limit exceeded" := by
  refine ⟨rfl, rfl, rfl, rfl⟩

/-- **C1 (amended).**  For every call to `scale_deployment` with
`replicas = 0` on an unprotected namespace, when `scale_to_zero` is in the
configured approval set and the rate-limit check passes, the call returns
`requires_approval = true` and `success = false`, the deployment is not
patched, no rate budget is consumed and nothing is logged; the approval
gate is evaluated after (not before) the rate limit. -/
theorem C1_scale_to_zero_requires_approval
    (s : Settings) (st : ClientState) (now : Int)
    (override redisCount : Option Nat) (ns name reason : String)
    (apiOk : Bool) (apiErr : String)
    (hns : check_namespace_protected s ns = false)
    (happr : s.require_approval_for.contains "scale_to_zero" = true)
    (hact : (st.rate_limiter.can_act now override redisCount).1 = true) :
    scale_deployment s st now override redisCount ns name 0 reason
        apiOk apiErr =
      { result := { success := false,
                    error := some "Scale to zero requires human approval",
                    requires_approval := some true },
        state := { st with
                   rate_limiter :=
                     (st.rate_limiter.can_act now override redisCount).2 },
        apiCalled := false } := by
  have happr1 : "scale_to_zero" ∈ s.require_approval_for := by
    simpa using happr
  simp [scale_deployment, hns, happr1, hact]

/-- **C1 witness.**  With an empty rate window the gate answers with the
approval requirement and leaves the state untouched apart from the pruned
window. -/
theorem C1_witness :
    scale_deployment exampleSettings freshState 1002 none none "default"
        "web" 0 "scale down" true "" =
      { result := { success := false,
                    error := some "Scale to zero requires human approval",
                    requires_approval := some true },
        state := freshState, apiCalled := false } := by
  have h := C1_scale_to_zero_requires_approval exampleSettings freshState 1002
    none none "default" "web" "scale down" true "" rfl rfl rfl
  exact h

/-- **C2.**  A `restart_pod` call on a protected namespace returns
`success = false` with the error naming the namespace as protected, makes
no orchestrator API call, consumes no rate budget and appends nothing to
the audit log (the whole state is returned unchanged); and every audit
entry a `restart_pod` call ever appends carries an unprotected
namespace. -/
theorem C2_protected_namespace_block
    (s : Settings) (st : ClientState) (now : Int)
    (override redisCount : Option Nat) (ns name reason : String)
    (apiOk : Bool) (apiErr : String) :
    (check_namespace_protected s ns = true →
      restart_pod s st now override redisCount ns name reason apiOk apiErr =
        { result := { success := false,
                      error := some ("Namespace " ++ ns ++ " is protected") },
          state := st, apiCalled := false }) ∧
    (∀ e ∈ (restart_pod s st now override redisCount ns name reason apiOk
        apiErr).state.audit_log.entries,
      e ∈ st.audit_log.entries ∨ check_namespace_protected s e.ns = false) := by
  constructor
  · intro h
    simp [restart_pod, h]
  · intro e he
    by_cases h : check_namespace_protected s ns
    · simp [restart_pod, h] at he
      exact Or.inl he
    · simp only [restart_pod, h, Bool.false_eq_true, if_false] at he
      split at he
      · exact Or.inl he
      · split at he
        · simp [AuditLog.log] at he
          rcases he with he | he
          · exact Or.inl he
          · subst he
            exact Or.inr (by simpa using h)
        · simp [AuditLog.log] at he
          rcases he with he | he
          · exact Or.inl he
          · subst he
            exact Or.inr (by simpa using h)

/-- **C2 witness.**  The protected-namespace scenario of the spec:
`restart_pod("kube-system", "coredns-abc", "test")`. -/
theorem C2_witness :
    restart_pod exampleSettings freshState 1002 none none "kube-system"
        "coredns-abc" "test" true "" =
      { result := { success := false,
                    error := some ("Namespace " ++ "kube-system" ++
                      " is protected") },
        state := freshState, apiCalled := false } :=
  (C2_protected_namespace_block exampleSettings freshState 1002 none none
    "kube-system" "coredns-abc" "test" true "").1 rfl

/-- **C3 — counterexample.**  The claim says every mutation attempt,
including rejected ones, appends an ActionRecord.  In the code a
protected-namespace `restart_pod` returns before any `audit_log.log` call
(k8s_client.py lines 671-672): starting from an empty log, the rejected
attempt leaves the audit log empty, and no `blocked` record exists. -/
theorem C3_counterexample :
    (restart_pod exampleSettings freshState 1002 none none "kube-system"
       "coredns-abc" "test" true "").result.success = false ∧
    (restart_pod exampleSettings freshState 1002 none none "kube-system"
       "coredns-abc" "test" true "").state.audit_log.entries = [] := by
  exact ⟨rfl, rfl⟩

/-- **C3 (amended).**  Only mutation attempts that pass the whole policy
pipeline reach the orchestrator and append an ActionRecord, always with
result `success` or `failed` (`blocked` is never recorded); attempts
rejected by namespace protection, rate limit or the scale-to-zero approval
gate append nothing.  Each logged record grows the in-memory list by
exactly one with no trimming (it is unbounded), while the durable Redis
list is trimmed to the last 500 entries. -/
theorem C3_audit_append_discipline
    (s : Settings) (st : ClientState) (now : Int)
    (override redisCount : Option Nat) (ns name reason : String)
    (replicas : Int) (apiOk : Bool) (apiErr : String) :
    ((restart_pod s st now override redisCount ns name reason apiOk
        apiErr).apiCalled = false →
      (restart_pod s st now override redisCount ns name reason apiOk
        apiErr).state.audit_log = st.audit_log) ∧
    ((restart_pod s st now override redisCount ns name reason apiOk
        apiErr).apiCalled = true →
      ∃ r : ActionRecord, (r.result = "success" ∨ r.result = "failed") ∧
        (restart_pod s st now override redisCount ns name reason apiOk
          apiErr).state.audit_log = st.audit_log.log r) ∧
    ((scale_deployment s st now override redisCount ns name replicas reason
        apiOk apiErr).apiCalled = false →
      (scale_deployment s st now override redisCount ns name replicas reason
        apiOk apiErr).state.audit_log = st.audit_log) ∧
    ((scale_deployment s st now override redisCount ns name replicas reason
        apiOk apiErr).apiCalled = true →
      ∃ r : ActionRecord, (r.result = "success" ∨ r.result = "failed") ∧
        (scale_deployment s st now override redisCount ns name replicas reason
          apiOk apiErr).state.audit_log = st.audit_log.log r) ∧
    (∀ (log : AuditLog) (e : ActionRecord),
      (log.log e).redis_entries.length ≤ AUDIT_LOG_MAX_LEN ∧
      (log.log e).entries.length = log.entries.length + 1) := by
  refine ⟨?_, ?_, ?_, ?_, ?_⟩
  · intro h
    by_cases hp : check_namespace_protected s ns
    · simp [restart_pod, hp]
    · by_cases hca : (st.rate_limiter.can_act now override redisCount).1
      · by_cases hok : apiOk
        · exact absurd h (by simp [restart_pod, hp, hca, hok])
        · exact absurd h (by simp [restart_pod, hp, hca, hok])
      · simp [restart_pod, hp, hca]
  · intro h
    by_cases hp : check_namespace_protected s ns
    · exact absurd h (by simp [restart_pod, hp])
    · by_cases hca : (st.rate_limiter.can_act now override redisCount).1
      · by_cases hok : apiOk
        · exact ⟨⟨now, "restart_pod", name, ns, reason, "success"⟩,
            Or.inl rfl, by simp [restart_pod, hp, hca, hok]⟩
        · exact ⟨⟨now, "restart_pod", name, ns, reason, "failed"⟩,
            Or.inr rfl, by simp [restart_pod, hp, hca, hok]⟩
      · exact absurd h (by simp [restart_pod, hp, hca])
  · intro h
    by_cases hp : check_namespace_protected s ns
    · simp [scale_deployment, hp]
    · by_cases hca : (st.rate_limiter.can_act now override redisCount).1
      · by_cases hz : replicas = 0
        · by_cases ha : "scale_to_zero" ∈ s.require_approval_for
          · simp [scale_deployment, hp, hca, hz, ha]
          · by_cases hok : apiOk
            · exact absurd h (by simp [scale_deployment, hp, hca, hz, ha, hok])
            · exact absurd h (by simp [scale_deployment, hp, hca, hz, ha, hok])
        · by_cases hok : apiOk
          · exact absurd h (by simp [scale_deployment, hp, hca, hz, hok])
          · exact absurd h (by simp [scale_deployment, hp, hca, hz, hok])
      · simp [scale_deployment, hp, hca]
  · intro h
    by_cases hp : check_namespace_protected s ns
    · exact absurd h (by simp [scale_deployment, hp])
    · by_cases hca : (st.rate_limiter.can_act now override redisCount).1
      · by_cases hz : replicas = 0
        · by_cases ha : "scale_to_zero" ∈ s.require_approval_for
          · exact absurd h (by simp [scale_deployment, hp, hca, hz, ha])
          · by_cases hok : apiOk
            · exact ⟨⟨now, "scale_deployment", name, ns, reason, "success"⟩,
                Or.inl rfl, by simp [scale_deployment, hp, hca, hz, ha, hok]⟩
            · exact ⟨⟨now, "scale_deployment", name, ns, reason, "failed"⟩,
                Or.inr rfl, by simp [scale_deployment, hp, hca, hz, ha, hok]⟩
        · by_cases hok : apiOk
          · exact ⟨⟨now, "scale_deployment", name, ns, reason, "success"⟩,
              Or.inl rfl, by simp [scale_deployment, hp, hca, hz, hok]⟩
          · exact ⟨⟨now, "scale_deployment", name, ns, reason, "failed"⟩,
              Or.inr rfl, by simp [scale_deployment, hp, hca, hz, hok]⟩
      · exact absurd h (by simp [scale_deployment, hp, hca])
  · intro log e
    exact ⟨by simp [AuditLog.log, List.length_take_le], by simp [AuditLog.log]⟩

/-- **C3 witness.**  A successful `restart_pod` on an unprotected namespace
appends one `success` record. -/
theorem C3_witness :
    ∃ r : ActionRecord, (r.result = "success" ∨ r.result = "failed") ∧
      (restart_pod exampleSettings freshState 1002 none none "default"
        "web-1" "crashloop" true "").state.audit_log =
        freshState.audit_log.log r :=
  (C3_audit_append_discipline exampleSettings freshState 1002 none none
    "default" "web-1" "crashloop" 1 true "").2.1 rfl

/-- Helper: appending anything to the right keeps a leading text. -/
theorem string_append_keeps_lead (p a b : String)
    (h : p.toList <+: a.toList) :
    p.toList <+: (a ++ b).toList := by
  have hab : (a ++ b).toList = a.toList ++ b.toList := by
    simp [String.toList]
  rw [hab]
  exact h.trans (List.prefix_append _ _)

/-- Helper: the fixed text `BLOCKED by quorum` starts every blocked-tool
message built by `quorum_gate`. -/
theorem blockedMessage_starts (res : QuorumResult) :
    "BLOCKED by quorum".toList <+: (blockedMessage res).toList := by
  unfold blockedMessage
  exact string_append_keeps_lead "BLOCKED by quorum" "BLOCKED by quorum (" _
    (by decide)

/-- Helper: with at least one valid vote, approval is the decided strict
threshold comparison on the consensus ratio. -/
theorem evaluate_action_approved (threshold : ℚ) (action target : String)
    (outs : List VoteTaskOutcome)
    (h : quorum_valid_votes action target outs ≠ []) :
    (evaluate_action threshold action target outs).approved =
      decide (threshold < quorum_consensus action target outs) := by
  simp [evaluate_action, List.isEmpty_iff, h]

/-- Helper: the consensus ratio in terms of the two vote tallies. -/
theorem quorum_consensus_eq (action target : String)
    (outs : List VoteTaskOutcome) (a n : Nat)
    (ha : ((quorum_valid_votes action target outs).filter
      (·.approved)).length = a)
    (hn : (quorum_valid_votes action target outs).length = n) :
    quorum_consensus action target outs = (a : ℚ) / (n : ℚ) := by
  simp [quorum_consensus, ha, hn]

/-- **C4.**  When the quorum evaluation does not approve, the gated tool
returns a string beginning with `BLOCKED by quorum` and the wrapped
coroutine is never executed; a malformed vote (no parseable `approved`
field) and a timed-out vote both count as rejections. -/
theorem C4_quorum_rejection_blocks (threshold : ℚ)
    (action target cres : String) (outs : List VoteTaskOutcome)
    (h : (evaluate_action threshold action target outs).approved = false) :
    (gated_func (evaluate_action threshold action target outs) cres).1 =
      false ∧
    "BLOCKED by quorum".toList <+:
      (gated_func (evaluate_action threshold action target outs) cres).2.toList ∧
    (∀ id a t pr pc,
      (evaluate_single id a t (.replied none pr pc)).map QuorumVote.approved =
        some false) ∧
    (∀ id a t,
      (evaluate_single id a t .timedOut).map QuorumVote.approved =
        some false) := by
  refine ⟨?_, ?_, fun id a t pr pc => rfl, fun id a t => rfl⟩
  · simp [gated_func, h]
  · have hg : (gated_func (evaluate_action threshold action target outs)
        cres).2 = blockedMessage (evaluate_action threshold action target
        outs) := by
      simp [gated_func, h]
    rw [hg]
    exact blockedMessage_starts _

/-- **C4 witness.**  Three voters, two rejecting, threshold 0.5: the gated
tool is blocked. -/
theorem C4_witness :
    (gated_func (evaluate_action (1 / 2) "restart_pod" "default/web"
       exampleQuorumOutcomes) "executed").1 = false ∧
    "BLOCKED by quorum".toList <+:
      (gated_func (evaluate_action (1 / 2) "restart_pod" "default/web"
         exampleQuorumOutcomes) "executed").2.toList := by
  have hlen : (quorum_valid_votes "restart_pod" "default/web"
      exampleQuorumOutcomes).length = 3 := rfl
  have hne : quorum_valid_votes "restart_pod" "default/web"
      exampleQuorumOutcomes ≠ [] := by
    intro hc
    rw [hc] at hlen
    exact absurd hlen (by decide)
  have hfa : ((quorum_valid_votes "restart_pod" "default/web"
      exampleQuorumOutcomes).filter (·.approved)).length = 1 := rfl
  have hcons := quorum_consensus_eq "restart_pod" "default/web"
    exampleQuorumOutcomes 1 3 hfa hlen
  have happr : (evaluate_action (1 / 2) "restart_pod" "default/web"
      exampleQuorumOutcomes).approved = false := by
    rw [evaluate_action_approved _ _ _ _ hne, hcons,
      decide_eq_false_iff_not]
    norm_num
  have h := C4_quorum_rejection_blocks (1 / 2) "restart_pod" "default/web"
    "executed" exampleQuorumOutcomes happr
  exact ⟨h.1, h.2.1⟩

/-- **C10.**  `evaluate_action` approves exactly when there is at least one
valid vote and the approving fraction strictly exceeds the threshold; with
no valid votes the result is not approved and carries consensus ratio 0
(the gate fails closed).  In particular an exact even split of valid votes
at threshold 0.5 is rejected. -/
theorem C10_evaluate_action_threshold (threshold : ℚ)
    (action target : String) (outs : List VoteTaskOutcome) :
    ((evaluate_action threshold action target outs).approved = true ↔
      quorum_valid_votes action target outs ≠ [] ∧
      threshold < quorum_consensus action target outs) ∧
    (quorum_valid_votes action target outs = [] →
      (evaluate_action threshold action target outs).approved = false ∧
      (evaluate_action threshold action target outs).consensus = 0) := by
  by_cases hv : quorum_valid_votes action target outs = []
  · refine ⟨?_, fun _ => ⟨?_, ?_⟩⟩ <;> simp [evaluate_action, hv]
  · refine ⟨?_, fun hcon => absurd hcon hv⟩
    simp [evaluate_action, List.isEmpty_iff, hv]

/-- **C10 witness.**  An even split (1 of 2 approving) at threshold 0.5 is
rejected, and an evaluation where every task failed is rejected with
consensus 0. -/
theorem C10_witness :
    (evaluate_action (1 / 2) "scale_deployment" "default/web"
       evenSplitOutcomes).approved = false ∧
    (evaluate_action (1 / 2) "drain_node" "node-1"
       [.taskFailed "llm unavailable"]).approved = false ∧
    (evaluate_action (1 / 2) "drain_node" "node-1"
       [.taskFailed "llm unavailable"]).consensus = 0 := by
  have h2 := (C10_evaluate_action_threshold (1 / 2) "drain_node" "node-1"
    [.taskFailed "llm unavailable"]).2 rfl
  refine ⟨?_, h2.1, h2.2⟩
  have h1 := C10_evaluate_action_threshold (1 / 2) "scale_deployment"
    "default/web" evenSplitOutcomes
  cases hb : (evaluate_action (1 / 2) "scale_deployment" "default/web"
      evenSplitOutcomes).approved
  · rfl
  · have hm := (h1.1).mp hb
    have hc : quorum_consensus "scale_deployment" "default/web"
        evenSplitOutcomes = (1 : ℚ) / (2 : ℚ) := by
      have := quorum_consensus_eq "scale_deployment" "default/web"
        evenSplitOutcomes 1 2 rfl rfl
      simpa using this
    rw [hc] at hm
    exact absurd hm.2 (by norm_num)

/-- **C7 — counterexample.**  The claim says the recurring rule fires when
the internal count (including the current call) *plus* the external count
reaches the threshold.  The code takes the *maximum* of the two
(escalation_classifier.py line 98): on the second call for key `k`
(internal count 2) with an external count of 1, the sum 3 reaches the
default threshold 3, yet the classifier returns `quick_fix`. -/
theorem C7_counterexample :
    (([("k", 1)] : List (String × Nat)).lookup "k").getD 0 + 1 = 2 ∧
    (([("k", 1)] : List (String × Nat)).lookup "k").getD 0 = 1 ∧
    3 ≤ 2 + 1 ∧
    (classify 3 [("k", 1)] "prometheus" "warning" "latency high" "" "k"
       (some [("k", 1)])).1 = EscalationLevel.quick_fix := by
  refine ⟨rfl, rfl, by norm_num, ?_⟩
  rfl

/-- **C7 (amended).**  Whenever the *maximum* of the internal occurrence
count for the dedupe key (including the current call) and the external
count derived from `issue_counts` (itself the max of the per-key and
per-source entries) reaches the recurring threshold, `classify` returns
`long_term`; this rule takes precedence over the source, keyword and
severity rules, which the statement quantifies over. -/
theorem C7_recurring_long_term (recurring_threshold : Nat)
    (counts : List (String × Nat))
    (source severity title details dedupe_key : String)
    (issue_counts : Option (List (String × Nat)))
    (h : recurring_threshold ≤
      max ((counts.lookup dedupe_key).getD 0 + 1)
        (match issue_counts with
         | some ic => max ((ic.lookup dedupe_key).getD 0)
             ((ic.lookup source).getD 0)
         | none => 0)) :
    (classify recurring_threshold counts source severity title details
       dedupe_key issue_counts).1 = EscalationLevel.long_term := by
  simp only [classify]
  rw [if_pos h]

/-- **C7 witness.**  Threshold 3, a key already seen twice (internal count
becomes 3): `long_term` regardless of a quick-fix source and severity. -/
theorem C7_witness :
    (classify 3 [("crashloop:default/web", 2)] "k8s_crashloop" "critical"
       "pod restart" "CrashLoopBackOff" "crashloop:default/web" none).1 =
      EscalationLevel.long_term :=
  C7_recurring_long_term 3 [("crashloop:default/web", 2)] "k8s_crashloop"
    "critical" "pod restart" "CrashLoopBackOff" "crashloop:default/web" none
    (by decide)

/-- **C8.**  With both bounds configured as parseable `HH:MM` times,
`_is_quiet_hours` is true exactly when the current local time lies in the
window, read same-day when `start ≤ end` and overnight otherwise; with
`start=22:00, end=06:00` it is true at 23:00 and 03:00 and false at 12:00;
and it is false whenever either bound is unconfigured. -/
theorem C8_quiet_hours_window (s e : String) (sm em cur : Nat)
    (hs : parseHHMM s = some sm) (he : parseHHMM e = some em) :
    (is_quiet_hours (some s) (some e) cur = some true ↔
      (if sm ≤ em then sm ≤ cur ∧ cur < em else cur ≥ sm ∨ cur < em)) ∧
    (∀ c endCfg, is_quiet_hours none endCfg c = some false) ∧
    (∀ c startCfg, is_quiet_hours startCfg none c = some false) ∧
    is_quiet_hours (some "22:00") (some "06:00") (23 * 60) = some true ∧
    is_quiet_hours (some "22:00") (some "06:00") (3 * 60) = some true ∧
    is_quiet_hours (some "22:00") (some "06:00") (12 * 60) = some false := by
  have hsne : s ≠ "" := by
    intro hc
    rw [hc] at hs
    simp [parseHHMM, splitOnColon, digitsToNat?] at hs
  have hene : e ≠ "" := by
    intro hc
    rw [hc] at he
    simp [parseHHMM, splitOnColon, digitsToNat?] at he
  refine ⟨?_, ?_, ?_, rfl, rfl, rfl⟩
  · have hred : is_quiet_hours (some s) (some e) cur =
        (if sm ≤ em then some (decide (sm ≤ cur ∧ cur < em))
         else some (decide (sm ≤ cur ∨ cur < em))) := by
      simp [is_quiet_hours, hsne, hene, hs, he]
    rw [hred]
    by_cases hle : sm ≤ em
    · simp [hle]
    · simp [hle]
  · intro c endCfg
    cases endCfg <;> rfl
  · intro c startCfg
    cases startCfg <;> rfl

/-- **C8 witness.**  The overnight window 22:00-06:00 contains 03:00. -/
theorem C8_witness :
    is_quiet_hours (some "22:00") (some "06:00") 180 = some true :=
  (C8_quiet_hours_window "22:00" "06:00" 1320 360 180 rfl rfl).1.mpr
    (by norm_num)

/-- **C9.**  The claim (and the repository's own e2e test
`tests/e2e/test_investigation.py`) says the `/api/v1/investigate` response
contains an `investigation_id` field.  The dict built by
`ClusterGuardian.investigate_issue` (agent.py lines 1313-1318 and
1323-1327), returned verbatim by the route handler, has exactly the keys
`success, summary, audit_log, timestamp` on success and
`success, error, timestamp` on failure: `investigation_id` is never
produced. -/
theorem C9_no_investigation_id :
    investigate_issue_keys true =
      ["success", "summary", "audit_log", "timestamp"] ∧
    investigate_issue_keys false = ["success", "error", "timestamp"] ∧
    ("investigation_id" ∈ investigate_issue_keys true → False) ∧
    ("investigation_id" ∈ investigate_issue_keys false → False) := by
  refine ⟨rfl, rfl, ?_, ?_⟩ <;> decide

/-- Helper: looking up the key just inserted. -/
theorem lastSeenGet_insert (seen : List (String × Int)) (k : String)
    (t : Int) : lastSeenGet (seenInsert seen k t) k = t := by
  simp [lastSeenGet, seenInsert]

/-- Helper: lookup after filtering another key out is unchanged. -/
theorem lookup_filter_ne (seen : List (String × Int)) (k k2 : String)
    (h : k2 ≠ k) :
    (seen.filter (fun p => p.1 ≠ k)).lookup k2 = seen.lookup k2 := by
  induction seen with
  | nil => rfl
  | cons p ps ih =>
    obtain ⟨p1, p2⟩ := p
    by_cases hp : p1 = k
    · subst hp
      have hb : (k2 == p1) = false := beq_eq_false_iff_ne.mpr h
      simpa [List.filter_cons, List.lookup, hb] using ih
    · cases hb : (k2 == p1) with
      | true => simp [List.filter_cons, hp, List.lookup, hb]
      | false => simpa [List.filter_cons, hp, List.lookup, hb] using ih

/-- Helper: inserting one key leaves other keys' last-seen times alone. -/
theorem lastSeenGet_insert_ne (seen : List (String × Int)) (k k2 : String)
    (t : Int) (h : k2 ≠ k) :
    lastSeenGet (seenInsert seen k t) k2 = lastSeenGet seen k2 := by
  have hkk : (k2 == k) = false := beq_eq_false_iff_ne.mpr h
  unfold lastSeenGet seenInsert
  rw [show List.lookup k2 ((k, t) :: seen.filter (fun p => p.1 ≠ k)) =
      List.lookup k2 (seen.filter (fun p => p.1 ≠ k)) from by
    simp [List.lookup, hkk]]
  rw [lookup_filter_ne seen k k2 h]

/-- Helper: every signal the dispatcher admits is at least a full
suppression window after the key's recorded last-seen time at the start of
the run. -/
theorem dedupRun_mem_gap (w : Int) (hw : 0 ≤ w) :
    ∀ (evs seen : List (String × Int)), ∀ p ∈ (dedupRun w seen evs).1,
      w ≤ p.2 - lastSeenGet seen p.1 := by
  intro evs
  induction evs with
  | nil =>
    intro seen p hp
    simp [dedupRun] at hp
  | cons ev evs ih =>
    intro seen p hp
    obtain ⟨k, t⟩ := ev
    by_cases hc : t - lastSeenGet seen k < w
    · rw [show (dedupRun w seen ((k, t) :: evs)).1 =
          (dedupRun w seen evs).1 from by simp [dedupRun, hc]] at hp
      exact ih seen p hp
    · push_neg at hc
      rw [show (dedupRun w seen ((k, t) :: evs)).1 =
          (k, t) :: (dedupRun w (seenInsert seen k t) evs).1 from by
            simp [dedupRun, not_lt.mpr hc]] at hp
      rcases List.mem_cons.mp hp with hp | hp
      · subst hp
        exact hc
      · have h2 := ih (seenInsert seen k t) p hp
        by_cases hk : p.1 = k
        · rw [hk, lastSeenGet_insert] at h2
          rw [hk]
          omega
        · rwa [lastSeenGet_insert_ne seen k p.1 t hk] at h2

/-- Helper: the admitted signals are pairwise at least a window apart
within each dedupe key. -/
theorem dedupRun_pairwise (w : Int) (hw : 0 ≤ w) :
    ∀ (evs seen : List (String × Int)),
      (dedupRun w seen evs).1.Pairwise
        (fun p q => p.1 = q.1 → w ≤ q.2 - p.2) := by
  intro evs
  induction evs with
  | nil =>
    intro seen
    simp [dedupRun]
  | cons ev evs ih =>
    intro seen
    obtain ⟨k, t⟩ := ev
    by_cases hc : t - lastSeenGet seen k < w
    · rw [show (dedupRun w seen ((k, t) :: evs)).1 =
          (dedupRun w seen evs).1 from by simp [dedupRun, hc]]
      exact ih seen
    · push_neg at hc
      rw [show (dedupRun w seen ((k, t) :: evs)).1 =
          (k, t) :: (dedupRun w (seenInsert seen k t) evs).1 from by
            simp [dedupRun, not_lt.mpr hc]]
      refine List.Pairwise.cons ?_ (ih (seenInsert seen k t))
      intro q hq hkq
      have h2 := dedupRun_mem_gap w hw evs (seenInsert seen k t) q hq
      rw [show q.1 = k from hkq.symm, lastSeenGet_insert] at h2
      exact h2

/-- **C5.**  Dedupe in the anomaly dispatcher: a signal is suppressed
exactly when `now - last_seen < suppression_window`, a suppressed signal
leaves the per-key timestamp map untouched (the timestamp is updated only
on dispatch), and consequently for every dedupe key any two dispatched
signals are at least a full suppression window apart. -/
theorem C5_dedupe_suppression (w : Int) (hw : 0 ≤ w)
    (seen evs : List (String × Int)) (k : String) (t : Int) :
    ((dedupRun w seen evs).1.Pairwise
      (fun p q => p.1 = q.1 → w ≤ q.2 - p.2)) ∧
    ((dedupStep w seen k t).1 = false ↔ t - lastSeenGet seen k < w) ∧
    (t - lastSeenGet seen k < w → dedupStep w seen k t = (false, seen)) ∧
    (w ≤ t - lastSeenGet seen k →
      dedupStep w seen k t = (true, seenInsert seen k t)) := by
  refine ⟨dedupRun_pairwise w hw evs seen, ?_, ?_, ?_⟩
  · by_cases hc : t - lastSeenGet seen k < w
    · simp [dedupStep, hc]
    · simp [dedupStep, hc]
  · intro hc
    simp [dedupStep, hc]
  · intro hc
    simp [dedupStep, not_lt.mpr hc]

/-- **C5 witness.**  Signals for one crash-loop key at times 1000, 1010 and
1400 with a 300 s window: 1010 is suppressed, the admitted ones are 300
apart, and the step at 1400 updates the timestamp map. -/
theorem C5_witness :
    ((dedupRun 300 [("crashloop:default/pod-x", 1000)]
        [("crashloop:default/pod-x", 1010),
         ("crashloop:default/pod-x", 1400)]).1.Pairwise
      (fun p q => p.1 = q.1 → (300 : Int) ≤ q.2 - p.2)) ∧
    dedupStep 300 [("crashloop:default/pod-x", 1000)]
        "crashloop:default/pod-x" 1400 =
      (true, seenInsert [("crashloop:default/pod-x", 1000)]
        "crashloop:default/pod-x" 1400) := by
  have h := C5_dedupe_suppression 300 (by norm_num)
    [("crashloop:default/pod-x", 1000)]
    [("crashloop:default/pod-x", 1010), ("crashloop:default/pod-x", 1400)]
    "crashloop:default/pod-x" 1400
  exact ⟨h.1, h.2.2.2 (by decide)⟩

/-- Helper: a successful lookup provides list membership. -/
theorem lookup_mem {β : Type} (l : List (String × β)) (k : String) (v : β)
    (h : l.lookup k = some v) : (k, v) ∈ l := by
  induction l with
  | nil => simp [List.lookup] at h
  | cons a as ih =>
    obtain ⟨a1, a2⟩ := a
    cases hb : (k == a1) with
    | true =>
      have hk : k = a1 := by simpa using hb
      rw [show List.lookup k ((a1, a2) :: as) = some a2 from by
        simp [List.lookup, hb]] at h
      injection h with h2
      subst hk
      subst h2
      exact List.mem_cons.mpr (Or.inl rfl)
    | false =>
      rw [show List.lookup k ((a1, a2) :: as) = List.lookup k as from by
        simp [List.lookup, hb]] at h
      exact List.mem_cons.mpr (Or.inr (ih h))

/-- Helper: replacing the value under a present key makes lookup return the
new value. -/
theorem lookup_replace (m : IncidentMap) (k : String) (inc : Incident)
    (h : (m.lookup k).isSome) :
    (m.map (fun p => if p.1 = k then (k, inc) else p)).lookup k =
      some inc := by
  induction m with
  | nil => simp [List.lookup] at h
  | cons a as ih =>
    obtain ⟨a1, a2⟩ := a
    by_cases hp : a1 = k
    · subst hp
      have hhead : ((a1, a2).1 = a1) := rfl
      rw [List.map_cons, if_pos hhead]
      simp [List.lookup]
    · have hb : (k == a1) = false :=
        beq_eq_false_iff_ne.mpr (fun hc => hp hc.symm)
      simp only [List.map_cons, if_neg hp]
      rw [show ∀ l, List.lookup k ((a1, a2) :: l) = List.lookup k l from
        fun l => by simp [List.lookup, hb]]
      refine ih ?_
      rw [show List.lookup k ((a1, a2) :: as) = List.lookup k as from by
        simp [List.lookup, hb]] at h
      exact h

/-- Helper: appending a binding for an absent key makes lookup find it. -/
theorem lookup_append_absent (m : IncidentMap) (k : String) (inc : Incident)
    (h : m.lookup k = none) :
    (m ++ [(k, inc)]).lookup k = some inc := by
  induction m with
  | nil => simp [List.lookup]
  | cons a as ih =>
    obtain ⟨a1, a2⟩ := a
    cases hb : (k == a1) with
    | true =>
      rw [show List.lookup k ((a1, a2) :: as) = some a2 from by
        simp [List.lookup, hb]] at h
      exact absurd h (by simp)
    | false =>
      rw [List.cons_append]
      rw [show ∀ l, List.lookup k ((a1, a2) :: l) = List.lookup k l from
        fun l => by simp [List.lookup, hb]]
      refine ih ?_
      rw [show List.lookup k ((a1, a2) :: as) = List.lookup k as from by
        simp [List.lookup, hb]] at h
      exact h

/-- Helper: `incidentsInsert` always makes the inserted incident the one
found under its key. -/
theorem incidentsInsert_lookup (m : IncidentMap) (k : String)
    (inc : Incident) : (incidentsInsert m k inc).lookup k = some inc := by
  unfold incidentsInsert
  by_cases h : (m.lookup k).isSome
  · rw [if_pos h]
    exact lookup_replace m k inc h
  · rw [if_neg h]
    refine lookup_append_absent m k inc ?_
    cases hm : m.lookup k
    · rfl
    · exact absurd (by simp [hm]) h

/-- **C6 — counterexample.**  The claim says a later alert with the same
correlation key as an investigated incident goes into a *new* incident.
In `IncidentCorrelator.correlate` (lines 168-178) the `investigated` flag
is never consulted: an alert arriving within the correlation window of a
terminal incident is appended to that same incident's alert list. -/
theorem C6_counterexample :
    exampleTerminalIncident.investigated = true ∧
    (correlate 300 [("default/web", exampleTerminalIncident)] exampleAlert
       1100).1 =
      [("default/web",
        { exampleTerminalIncident with
          alerts := exampleTerminalIncident.alerts ++ [exampleAlert],
          last_alert_at := 1100 })] ∧
    (correlate 300 [("default/web", exampleTerminalIncident)] exampleAlert
       1100).2 = exampleTerminalIncident.id := ⟨rfl, rfl, rfl⟩

/-- **C6 (amended).**  A terminal (`investigated = true`) incident never
fires its investigation again: the debounce body checks the flag before
firing.  But a subsequent alert with the same correlation key is appended
to the terminal incident whenever it arrives within the correlation window
of the incident's last alert; only when every incident in the map is
outside the window (and no related-alert match exists) is the alert placed
in a newly created, uninvestigated incident. -/
theorem C6_terminal_never_refires (w : Int) (m : IncidentMap) (a : Alert)
    (now : Int) (inc : Incident) (cb : Bool)
    (hfound : m.lookup (correlation_key a) = some inc)
    (hwin : now - inc.last_alert_at < w) :
    (correlate w m a now).2 = inc.id ∧
    (correlate w m a now).1.lookup (correlation_key a) =
      some (inc.add_alert a now) ∧
    (∀ inc2 : Incident, inc2.investigated = true →
      (debounced_fire inc2 cb).1 = false) ∧
    (∀ (m2 : IncidentMap) (a2 : Alert) (now2 : Int),
      (∀ p ∈ m2, w ≤ now2 - p.2.last_alert_at) →
      (correlate w m2 a2 now2).1.lookup (correlation_key a2) =
        some ⟨incident_id (correlation_key a2 ++ "-" ++ toString now2),
          correlation_key a2, [a2], now2, now2, false⟩) := by
  refine ⟨?_, ?_, ?_, ?_⟩
  · simp [correlate, hfound, hwin]
  · simp only [correlate, hfound, if_pos hwin]
    exact incidentsInsert_lookup m (correlation_key a) (inc.add_alert a now)
  · intro inc2 h2
    simp [debounced_fire, h2]
  · intro m2 a2 now2 hall
    have hnew : ∀ key : String,
        (correlateNew m2 a2 now2 key).1.lookup key =
          some ⟨incident_id (key ++ "-" ++ toString now2), key, [a2],
            now2, now2, false⟩ := by
      intro key
      exact incidentsInsert_lookup m2 key _
    have hfall : correlateFallback w m2 a2 now2 (correlation_key a2)
        (labelGet a2 "alertname") = correlateNew m2 a2 now2
          (correlation_key a2) := by
      unfold correlateFallback
      have hrel : findRelated w now2 (labelGet a2 "alertname") m2 = none := by
        refine List.find?_eq_none.mpr ?_
        intro p hp
        have := hall p hp
        simp [not_lt.mpr this]
      by_cases hn : labelGet a2 "alertname" ≠ ""
      · simp [hn, hrel]
      · simp [hn]
    cases hm : m2.lookup (correlation_key a2) with
    | none =>
      have hc : correlate w m2 a2 now2 = correlateFallback w m2 a2 now2
          (correlation_key a2) (labelGet a2 "alertname") := by
        simp only [correlate, hm]
      rw [hc, hfall]
      exact hnew (correlation_key a2)
    | some inc2 =>
      have hmem := lookup_mem m2 (correlation_key a2) inc2 hm
      have hge := hall _ hmem
      have hc : correlate w m2 a2 now2 = correlateFallback w m2 a2 now2
          (correlation_key a2) (labelGet a2 "alertname") := by
        simp only [correlate, hm]
        rw [if_neg (not_lt.mpr hge)]
      rw [hc, hfall]
      exact hnew (correlation_key a2)

/-- **C6 witness.**  The terminal incident of the counterexample: its id is
returned, the alert lands on it, and the debounce body does not fire. -/
theorem C6_witness :
    (correlate 300 [("default/web", exampleTerminalIncident)] exampleAlert
       1100).2 = exampleTerminalIncident.id ∧
    (debounced_fire exampleTerminalIncident true).1 = false := by
  have h := C6_terminal_never_refires 300
    [("default/web", exampleTerminalIncident)] exampleAlert 1100
    exampleTerminalIncident true rfl (by decide)
  exact ⟨h.1, h.2.2.1 exampleTerminalIncident rfl⟩

end ClusterGuardian
